import Mathlib

/-!
Verification of the jrtecht repository: an Express backend with a
`POST /contact` endpoint and a `GET /` liveness endpoint
(src/backend/server.js), and a React client whose `handleContactSubmit`
sends the form and updates UI state (frontend App.jsx).

Modelling choices:
* A JavaScript value that may be `undefined` is `Option String`; the JS
  truthiness test `!x` on such a value is `fieldMissing` (true for
  `undefined` and for the empty string), and `x || d` is `jsOrString`.
* The backend console is a log stream `List String`; `console.log`
  appends lines.
* The client `fetch` outcome is `FetchOutcome`: either a response with
  an `ok` flag (true exactly for 2xx statuses) and a parsed JSON body
  whose `message` field may be absent, or a network error (rejected
  promise, caught by the `catch` block).
-/

/-- The JSON body of a `POST /contact` request: each of the two fields may
be absent (`none`) or a string. Mirrors `const { email, message } = req.body`. -/
structure ContactRequest where
  email : Option String
  message : Option String
  deriving DecidableEq, Repr

/-- The JSON response sent by the contact handler together with its HTTP
status: `res.status(s).json({ success, message })`. -/
structure ContactResponse where
  status : Nat
  success : Bool
  message : String
  deriving DecidableEq, Repr

/-- JS truthiness test `!x` for a string-or-undefined value: true when the
value is `undefined` or the empty string. -/
def fieldMissing : Option String → Bool
  | none => true
  | some s => s = ""

/-- JS `x || d` for a string-or-undefined `x` and a string default `d`:
yields `d` when `x` is `undefined` or empty, otherwise the string itself. -/
def jsOrString : Option String → String → String
  | none, d => d
  | some s, d => if s = "" then d else s

/-- The four lines the server prints for one accepted submission
(`console.log` calls in server.js). -/
def submissionLogLines (email message : String) : List String :=
  ["\n--- New Contact Form Submission ---",
   "Email: " ++ email,
   "Message: " ++ message,
   "-----------------------------------\n"]

/-- The `POST /contact` handler from src/backend/server.js: if either field
is missing (`!email || !message`) it answers 400 with a failure body and
leaves the log stream untouched; otherwise it appends the submission to the
log and answers 200 with a success body. -/
def contactHandler (req : ContactRequest) (log : List String) :
    ContactResponse × List String :=
  if fieldMissing req.email || fieldMissing req.message then
    ({ status := 400, success := false,
       message := "Email and message are required." }, log)
  else
    ({ status := 200, success := true,
       message := "Your message has been sent successfully!" },
     log ++ submissionLogLines (req.email.getD "") (req.message.getD ""))

/-- The `GET /` handler from src/backend/server.js: a constant plain-text
liveness string sent by `res.send`. -/
def rootGetHandler (_req : Unit) : String :=
  "JR Tech Solutions Backend is running. Ready to receive POST requests at /contact."

/-- The contact-form UI state held by the App component: the two input
fields, the loading flag, the success flag (`null`, true or false) and the
feedback text (which `setContactFeedback(result.message)` can set to
`undefined`, hence `Option String`). -/
structure ClientState where
  contactEmail : String
  contactMessage : String
  contactLoading : Bool
  contactSuccess : Option Bool
  contactFeedback : Option String
  deriving DecidableEq, Repr

/-- The initial UI state from the `useState` calls in App.jsx. -/
def initClientState : ClientState :=
  { contactEmail := "", contactMessage := "", contactLoading := false,
    contactSuccess := none, contactFeedback := some "" }

/-- Outcome of the `fetch` in `handleContactSubmit`: a response with its
`ok` flag (true exactly when the status is 2xx) and the `message` field of
the parsed JSON body (absent = `none`), or a network error that rejects the
promise and lands in the `catch` block. -/
inductive FetchOutcome where
  | response (ok : Bool) (message : Option String)
  | networkError
  deriving DecidableEq, Repr

/-- `handleContactSubmit` from App.jsx, as a state transformer over the
contact-form UI state given the fetch outcome: it first resets loading /
success / feedback, then branches on `response.ok` (success: store the
server message and clear both inputs; failure: store the server message or
a generic fallback) or on a caught network error, and the `finally` block
clears the loading flag in every case. -/
def handleContactSubmit (s : ClientState) (outcome : FetchOutcome) : ClientState :=
  let s1 := { s with contactLoading := true, contactSuccess := none,
                     contactFeedback := some "" }
  let s2 :=
    match outcome with
    | .response ok m =>
      if ok then
        { s1 with contactSuccess := some true, contactFeedback := m,
                  contactEmail := "", contactMessage := "" }
      else
        { s1 with contactSuccess := some false,
                  contactFeedback :=
                    some (jsOrString m "Something went wrong. Please try again.") }
    | .networkError =>
        { s1 with contactSuccess := some false,
                  contactFeedback :=
                    some "Network error. Please ensure the backend server is running." }
  { s2 with contactLoading := false }

/-- Claim C1: a `POST /contact` request missing `email` or `message`
(absent or empty) gets status 400 with body
`{success:false, message:"Email and message are required."}` and the log
stream is unchanged. -/
theorem contact_missing_field (req : ContactRequest) (log : List String)
    (h : fieldMissing req.email = true ∨ fieldMissing req.message = true) :
    contactHandler req log =
      ({ status := 400, success := false,
         message := "Email and message are required." }, log) := by
  unfold contactHandler
  rcases h with h | h <;> simp [h]

/-- Witness for C1: the request with empty email and message "hi" is
rejected with 400 and does not extend the log. -/
theorem contact_missing_field_witness :
    contactHandler ⟨some "", some "hi"⟩ ["earlier line"] =
      ({ status := 400, success := false,
         message := "Email and message are required." }, ["earlier line"]) :=
  contact_missing_field ⟨some "", some "hi"⟩ ["earlier line"] (Or.inl rfl)

/-- Claim C2: a `POST /contact` request with both fields present as
non-empty strings gets status 200 with body
`{success:true, message:"Your message has been sent successfully!"}`, and
the submission's lines are appended to the log stream. -/
theorem contact_valid_submission (req : ContactRequest) (log : List String)
    (e m : String) (he : req.email = some e) (hm : req.message = some m)
    (hne : e ≠ "") (hnm : m ≠ "") :
    contactHandler req log =
      ({ status := 200, success := true,
         message := "Your message has been sent successfully!" },
       log ++ submissionLogLines e m) := by
  obtain ⟨oe, om⟩ := req
  simp only at he hm
  subst he; subst hm
  simp [contactHandler, fieldMissing, hne, hnm]

/-- Witness for C2: the request with email "a@b.com" and message "hi" is
accepted with 200 and its lines are logged. -/
theorem contact_valid_submission_witness :
    contactHandler ⟨some "a@b.com", some "hi"⟩ [] =
      ({ status := 200, success := true,
         message := "Your message has been sent successfully!" },
       [] ++ submissionLogLines "a@b.com" "hi") :=
  contact_valid_submission ⟨some "a@b.com", some "hi"⟩ [] "a@b.com" "hi"
    rfl rfl (by decide) (by decide)

/-- Claim C3: every `POST /contact` response is a
`{success: boolean, message: string}` body (the type `ContactResponse`),
with status 200 exactly when `success` is true, 400 exactly when `success`
is false, and no other status. -/
theorem contact_status_invariant (req : ContactRequest) (log : List String) :
    ((contactHandler req log).1.status = 200 ↔ (contactHandler req log).1.success = true) ∧
    ((contactHandler req log).1.status = 400 ↔ (contactHandler req log).1.success = false) ∧
    ((contactHandler req log).1.status = 200 ∨ (contactHandler req log).1.status = 400) := by
  unfold contactHandler
  split <;> simp

/-- Claim C4: a client submission whose fetch yields a success (2xx)
response ends with both inputs cleared, `contactSuccess = true`,
`contactFeedback` equal to the server's message, and
`contactLoading = false`. -/
theorem submit_success_state (s : ClientState) (m : Option String) :
    handleContactSubmit s (FetchOutcome.response true m) =
      { contactEmail := "", contactMessage := "", contactLoading := false,
        contactSuccess := some true, contactFeedback := m } := rfl

/-- Claim C5: a client submission whose fetch fails with a network error
ends with `contactSuccess = false`, the generic connectivity feedback
message, and `contactLoading = false`. -/
theorem submit_network_error_state (s : ClientState) :
    (handleContactSubmit s FetchOutcome.networkError).contactSuccess = some false ∧
    (handleContactSubmit s FetchOutcome.networkError).contactFeedback =
      some "Network error. Please ensure the backend server is running." ∧
    (handleContactSubmit s FetchOutcome.networkError).contactLoading = false :=
  ⟨rfl, rfl, rfl⟩

/-- Claim C6: whatever the fetch outcome, `handleContactSubmit` ends with
`contactLoading = false` (the `finally` block). -/
theorem submit_always_clears_loading (s : ClientState) (outcome : FetchOutcome) :
    (handleContactSubmit s outcome).contactLoading = false := by
  cases outcome with
  | response ok m => cases ok <;> rfl
  | networkError => rfl

/-- Counterexample for C7: on a non-OK response whose body carries the
present-but-empty message `""`, the client shows the generic fallback, not
the server-provided message, so the claim as stated fails. -/
theorem submit_non_ok_empty_message_counterexample :
    (handleContactSubmit initClientState
        (FetchOutcome.response false (some ""))).contactFeedback =
      some "Something went wrong. Please try again." ∧
    (handleContactSubmit initClientState
        (FetchOutcome.response false (some ""))).contactFeedback ≠ some "" := by
  constructor
  · rfl
  · decide

/-- Claim C7 (amended): a client submission with a non-OK response ends
with `contactSuccess = false` and `contactFeedback` equal to the
server-provided message when present as a non-empty string, otherwise the
generic message "Something went wrong. Please try again." (the JS
`result.message || fallback`). -/
theorem submit_non_ok_state (s : ClientState) (m : Option String) :
    (handleContactSubmit s (FetchOutcome.response false m)).contactSuccess = some false ∧
    (handleContactSubmit s (FetchOutcome.response false m)).contactFeedback =
      some (jsOrString m "Something went wrong. Please try again.") :=
  ⟨rfl, rfl⟩

/-- Claim C8: every `GET /` request returns the fixed plain-text liveness
string. -/
theorem root_liveness (req : Unit) :
    rootGetHandler req =
      "JR Tech Solutions Backend is running. Ready to receive POST requests at /contact." :=
  rfl

/-- Claim C9: validation does not trim string contents: the request with
whitespace-only email " " and message " " is accepted with status 200 and
`success:true` (and is even logged). -/
theorem contact_whitespace_accepted :
    contactHandler ⟨some " ", some " "⟩ [] =
      ({ status := 200, success := true,
         message := "Your message has been sent successfully!" },
       submissionLogLines " " " ") := by
  decide

/-- Claim C10: on every non-success outcome (non-OK response or network
error) the input fields `contactEmail` and `contactMessage` keep the values
they had at submission time. -/
theorem submit_failure_keeps_inputs (s : ClientState) (m : Option String) :
    (handleContactSubmit s (FetchOutcome.response false m)).contactEmail = s.contactEmail ∧
    (handleContactSubmit s (FetchOutcome.response false m)).contactMessage = s.contactMessage ∧
    (handleContactSubmit s FetchOutcome.networkError).contactEmail = s.contactEmail ∧
    (handleContactSubmit s FetchOutcome.networkError).contactMessage = s.contactMessage :=
  ⟨rfl, rfl, rfl, rfl⟩
